import Mathlib

/-!
Verification of the `blazerod::physics` module (PhysicsScene / PhysicsWorld).

The development shallowly embeds the C++ sources:
 - `PhysicsScene.cpp`: the fixed-offset little-endian binary decoder for
   rigid-body and joint records, and the scene constructor.
 - `PhysicsWorld.cpp`: world construction (shape / mass / inertia / motion
   state / constraint building), the broadphase collision filter, the three
   motion-state bridge classes, and the destructor's teardown order.

Scalar conventions: byte buffers are `List Nat` (each entry one byte);
32-bit little-endian scalar fields decoded by `memcpy` are represented by
their raw 32-bit word value (`Nat`).  At the world-construction layer,
`float` quantities are modelled as rationals (`ℚ`), which represent the
arithmetic the code performs (comparisons with zero and negation) exactly.
Enum-typed fields (`ShapeType`, `PhysicsMode`, `JointType`) are kept as the
raw decoded word (`Nat`), matching `CopyEnumField`, which `static_cast`s the
raw `uint32_t` into the enum without any domain check.
-/

namespace Blazerod

/-- `Vector3f` from `PhysicsScene.h`, parametrised by the scalar type
(`Nat` for raw decoded words, `ℚ` for the world-construction layer). -/
structure Vector3f (α : Type) where
  x : α
  y : α
  z : α
deriving DecidableEq

/-- `RigidBody` from `PhysicsScene.h`.  `shape_type` and `physics_mode`
hold the raw decoded enum word. -/
structure RigidBody (α : Type) where
  collision_group : Nat
  collision_mask : Nat
  shape_type : Nat
  physics_mode : Nat
  shape_size : Vector3f α
  shape_position : Vector3f α
  shape_rotation : Vector3f α
  mass : α
  move_attenuation : α
  rotation_damping : α
  repulsion : α
  friction_force : α
deriving DecidableEq

/-- `Joint` from `PhysicsScene.h`.  `type` holds the raw decoded enum word. -/
structure Joint (α : Type) where
  type : Nat
  rigidbody_a_index : Nat
  rigidbody_b_index : Nat
  position : Vector3f α
  rotation : Vector3f α
  position_min : Vector3f α
  position_max : Vector3f α
  rotation_min : Vector3f α
  rotation_max : Vector3f α
  position_spring : Vector3f α
  rotation_spring : Vector3f α
deriving DecidableEq

/-- `PhysicsScene` from `PhysicsScene.h`: the two decoded sequences. -/
structure PhysicsScene (α : Type) where
  rigidbodies : List (RigidBody α)
  joints : List (Joint α)
deriving DecidableEq

/-- `ShapeType::SPHERE` -/
def SPHERE : Nat := 0
/-- `ShapeType::BOX` -/
def BOX : Nat := 1
/-- `ShapeType::CAPSULE` -/
def CAPSULE : Nat := 2
/-- `PhysicsMode::FOLLOW_BONE` -/
def FOLLOW_BONE : Nat := 0
/-- `PhysicsMode::PHYSICS` -/
def PHYSICS : Nat := 1
/-- `PhysicsMode::PHYSICS_PLUS_BONE` -/
def PHYSICS_PLUS_BONE : Nat := 2
/-- `JointType::SPRING_6DOF` -/
def SPRING_6DOF : Nat := 0

/-- Errors thrown by `DeserializeRigidbodies` / `DeserializeJoints`
(`std::invalid_argument` with messages "Empty rigidbody data" and
"Invalid rigidbody size" / "Invalid joint size"). -/
inductive DecodeError
  | EmptyInput
  | InvalidSize
deriving DecidableEq

/-- A 32-bit little-endian read at byte offset `off`: `memcpy` of four
bytes into a `uint32_t` on a little-endian host (`CopyField`). -/
def readU32LE (bytes : List Nat) (off : Nat) : Nat :=
  bytes.getD off 0 + 256 * bytes.getD (off + 1) 0 +
    65536 * bytes.getD (off + 2) 0 + 16777216 * bytes.getD (off + 3) 0

/-- `CopyVector3fField`: three consecutive 4-byte scalars at `off`,
`off+4`, `off+8`. -/
def readVector3f (bytes : List Nat) (off : Nat) : Vector3f Nat :=
  ⟨readU32LE bytes off, readU32LE bytes (off + 4), readU32LE bytes (off + 8)⟩

/-- The per-record body of the loop in `DeserializeRigidbodies`: fields
copied from fixed offsets within one 72-byte record. -/
def parseRigidBody (b : List Nat) : RigidBody Nat where
  collision_group := readU32LE b 0
  collision_mask := readU32LE b 4
  shape_type := readU32LE b 8
  physics_mode := readU32LE b 12
  shape_size := readVector3f b 16
  shape_position := readVector3f b 28
  shape_rotation := readVector3f b 40
  mass := readU32LE b 52
  move_attenuation := readU32LE b 56
  rotation_damping := readU32LE b 60
  repulsion := readU32LE b 64
  friction_force := readU32LE b 68

/-- The per-record body of the loop in `DeserializeJoints`: fields copied
from fixed offsets within one 108-byte record. -/
def parseJoint (b : List Nat) : Joint Nat where
  type := readU32LE b 0
  rigidbody_a_index := readU32LE b 4
  rigidbody_b_index := readU32LE b 8
  position := readVector3f b 12
  rotation := readVector3f b 24
  position_min := readVector3f b 36
  position_max := readVector3f b 48
  rotation_min := readVector3f b 60
  rotation_max := readVector3f b 72
  position_spring := readVector3f b 84
  rotation_spring := readVector3f b 96

/-- `DeserializeRigidbodies` (PhysicsScene.cpp): empty input throws
`EmptyInput`; a length that is not a multiple of 72 throws `InvalidSize`;
otherwise one record is parsed per 72-byte chunk, in order. -/
def deserializeRigidbodies (bytes : List Nat) : Except DecodeError (List (RigidBody Nat)) :=
  if bytes.length = 0 then .error .EmptyInput
  else if bytes.length % 72 ≠ 0 then .error .InvalidSize
  else .ok ((List.range (bytes.length / 72)).map fun i => parseRigidBody (bytes.drop (72 * i)))

/-- `DeserializeJoints` (PhysicsScene.cpp): a length that is not a multiple
of 108 throws `InvalidSize` (a zero length passes, 0 being a multiple of
108); otherwise one record is parsed per 108-byte chunk, in order. -/
def deserializeJoints (bytes : List Nat) : Except DecodeError (List (Joint Nat)) :=
  if bytes.length % 108 ≠ 0 then .error .InvalidSize
  else .ok ((List.range (bytes.length / 108)).map fun i => parseJoint (bytes.drop (108 * i)))

/-- `PhysicsScene::PhysicsScene`: both decoders must succeed; a throw from
either aborts scene construction with that error. -/
def physicsSceneNew (rigidbody_bytes joint_bytes : List Nat) :
    Except DecodeError (PhysicsScene Nat) := do
  let rigidbodies ← deserializeRigidbodies rigidbody_bytes
  let joints ← deserializeJoints joint_bytes
  return ⟨rigidbodies, joints⟩

/-- Modelled from the spec: the rigid-body field-offset table of §6
(`collision_group:u32@0, ..., friction_force:f32@68`), read at absolute
offsets `72*i + offset` of the whole buffer, for comparison with what the
decoder produces for record `i`. -/
def specRigidBodyFields (bytes : List Nat) (i : Nat) : RigidBody Nat where
  collision_group := readU32LE bytes (72 * i)
  collision_mask := readU32LE bytes (72 * i + 4)
  shape_type := readU32LE bytes (72 * i + 8)
  physics_mode := readU32LE bytes (72 * i + 12)
  shape_size := readVector3f bytes (72 * i + 16)
  shape_position := readVector3f bytes (72 * i + 28)
  shape_rotation := readVector3f bytes (72 * i + 40)
  mass := readU32LE bytes (72 * i + 52)
  move_attenuation := readU32LE bytes (72 * i + 56)
  rotation_damping := readU32LE bytes (72 * i + 60)
  repulsion := readU32LE bytes (72 * i + 64)
  friction_force := readU32LE bytes (72 * i + 68)

lemma readU32LE_drop (bytes : List Nat) (n k : Nat) :
    readU32LE (bytes.drop n) k = readU32LE bytes (n + k) := by
  simp [readU32LE, List.getD_eq_getElem?_getD, List.getElem?_drop, Nat.add_assoc]

lemma readVector3f_drop (bytes : List Nat) (n k : Nat) :
    readVector3f (bytes.drop n) k = readVector3f bytes (n + k) := by
  simp [readVector3f, readU32LE_drop, Nat.add_assoc]

lemma parseRigidBody_drop (bytes : List Nat) (i : Nat) :
    parseRigidBody (bytes.drop (72 * i)) = specRigidBodyFields bytes i := by
  simp [parseRigidBody, specRigidBodyFields, readU32LE_drop, readVector3f_drop]

/-- Claim C2: decoding rigid bodies fails exactly on a zero-length buffer
(`EmptyInput`) or a length that is not a multiple of 72 (`InvalidSize`);
decoding joints fails exactly on a length that is not a multiple of 108;
a zero-length joint buffer succeeds with the empty joint list; and an
error result carries no decoded records, so a failing call yields nothing. -/
theorem c2_decode_length_errors (rb jb : List Nat) :
    (deserializeRigidbodies rb = .error .EmptyInput ↔ rb.length = 0)
    ∧ (deserializeRigidbodies rb = .error .InvalidSize ↔
        rb.length ≠ 0 ∧ rb.length % 72 ≠ 0)
    ∧ ((∃ e, deserializeRigidbodies rb = .error e) ↔
        rb.length = 0 ∨ rb.length % 72 ≠ 0)
    ∧ (deserializeJoints jb = .error .InvalidSize ↔ jb.length % 108 ≠ 0)
    ∧ ((∃ e, deserializeJoints jb = .error e) ↔ jb.length % 108 ≠ 0)
    ∧ deserializeJoints [] = .ok [] := by
  unfold deserializeRigidbodies deserializeJoints
  refine ⟨?_, ?_, ?_, ?_, ?_, by rfl⟩ <;> split_ifs <;> simp_all

/-- Claim C3: on a buffer of length `72 * N` with `N ≥ 1`, decoding rigid
bodies succeeds with exactly `N` records, and record `i` has every field
equal to the little-endian word stored at the spec's fixed offset of the
`i`-th 72-byte chunk (`specRigidBodyFields`). -/
theorem c3_decode_rigidbody_fields (bytes : List Nat) (N : Nat)
    (hlen : bytes.length = 72 * N) (hN : 1 ≤ N) :
    ∃ rs, deserializeRigidbodies bytes = .ok rs ∧ rs.length = N ∧
      ∀ i, i < N → rs[i]? = some (specRigidBodyFields bytes i) := by
  refine ⟨(List.range (bytes.length / 72)).map fun i => parseRigidBody (bytes.drop (72 * i)),
    ?_, ?_, ?_⟩
  · unfold deserializeRigidbodies
    have h0 : bytes.length ≠ 0 := by omega
    have h72 : bytes.length % 72 = 0 := by omega
    simp [h0, h72]
  · simp [hlen, Nat.mul_div_cancel_left N (by norm_num : 0 < 72)]
  · intro i hi
    have hi' : i < bytes.length / 72 := by
      rw [hlen, Nat.mul_div_cancel_left N (by norm_num : 0 < 72)]; exact hi
    simp [List.getElem?_range hi', parseRigidBody_drop]

/-- Witness for C3 at a concrete 72-byte buffer (one record of byte value 7). -/
theorem c3_decode_rigidbody_fields_witness :
    ∃ rs, deserializeRigidbodies (List.replicate 72 7) = .ok rs ∧ rs.length = 1 ∧
      ∀ i, i < 1 → rs[i]? = some (specRigidBodyFields (List.replicate 72 7) i) :=
  c3_decode_rigidbody_fields (List.replicate 72 7) 1 (by simp) (by norm_num)

/-!
World-construction layer (`PhysicsWorld.cpp`).  Scene scalars are `ℚ`.
-/

/-- Errors thrown by `PhysicsWorld::PhysicsWorld` (`std::invalid_argument`
with messages "Transform buffer size does not match rigidbody count",
"Invalid shape", "Invalid physics mode", "Invalid rigidbody index"). -/
inductive ConstructionError
  | SizeMismatch
  | InvalidShape
  | InvalidPhysicsMode
  | InvalidIndex
deriving DecidableEq

/-- The collision shape built by the `switch` on `shape_type`. -/
inductive CollisionShape
  | btBoxShape (halfExtents : Vector3f ℚ)
  | btSphereShape (radius : ℚ)
  | btCapsuleShape (radius : ℚ) (height : ℚ)
deriving DecidableEq

/-- The local inertia passed to the engine body: `btVector3(0,0,0)` unless
`mass != 0.0f`, in which case `shape->calculateLocalInertia(mass, ...)`
(an engine computation, recorded here symbolically by its inputs). -/
inductive LocalInertia
  | zero
  | calculated (shape : CollisionShape) (mass : ℚ)
deriving DecidableEq

/-- Which of the three `btMotionState` subclasses was instantiated, with
the body index it captures. -/
inductive MotionStateKind
  | followBone (rigidbody_index : Nat)
  | physics (rigidbody_index : Nat)
  | physicsPlusBone (rigidbody_index : Nat)
deriving DecidableEq

/-- The body index captured by a motion-state bridge. -/
def MotionStateKind.index : MotionStateKind → Nat
  | .followBone i => i
  | .physics i => i
  | .physicsPlusBone i => i

/-- The engine rigid body as configured by `btRigidBodyConstructionInfo`
plus the post-construction calls (`setActivationState`,
`setCollisionFlags`).  `ctor_mass` is the first constructor argument. -/
structure EngineRigidBody where
  ctor_mass : ℚ
  local_inertia : LocalInertia
  linear_damping : ℚ
  angular_damping : ℚ
  restitution : ℚ
  friction : ℚ
  additional_damping : Bool
  deactivation_disabled : Bool
  kinematic : Bool
deriving DecidableEq

/-- `RigidBodyData` from `PhysicsWorld.h`. -/
structure RigidBodyData where
  shape : CollisionShape
  motion_state : MotionStateKind
  rigidbody : EngineRigidBody
deriving DecidableEq

/-- The `switch (rigidbody_item.shape_type)` of the construction loop. -/
def buildShape (rb : RigidBody ℚ) : Except ConstructionError CollisionShape :=
  if rb.shape_type = BOX then .ok (.btBoxShape rb.shape_size)
  else if rb.shape_type = SPHERE then .ok (.btSphereShape rb.shape_size.x)
  else if rb.shape_type = CAPSULE then .ok (.btCapsuleShape rb.shape_size.x rb.shape_size.y)
  else .error .InvalidShape

/-- The `switch (rigidbody_item.physics_mode)` of the construction loop. -/
def buildMotionState (physics_mode rigidbody_index : Nat) :
    Except ConstructionError MotionStateKind :=
  if physics_mode = FOLLOW_BONE then .ok (.followBone rigidbody_index)
  else if physics_mode = PHYSICS then .ok (.physics rigidbody_index)
  else if physics_mode = PHYSICS_PLUS_BONE then .ok (.physicsPlusBone rigidbody_index)
  else .error .InvalidPhysicsMode

/-- One iteration of the rigid-body construction loop of
`PhysicsWorld::PhysicsWorld`: shape, effective mass, conditional inertia,
motion state, then the engine body whose construction info receives
`rigidbody_item.mass` and the damping / restitution / friction fields. -/
def buildRigidBodyData (rigidbody_index : Nat) (rb : RigidBody ℚ) :
    Except ConstructionError RigidBodyData :=
  match buildShape rb with
  | .error e => .error e
  | .ok shape =>
  let mass : ℚ := if rb.physics_mode = FOLLOW_BONE then 0 else rb.mass
  let local_inertia := if mass ≠ 0 then LocalInertia.calculated shape mass else LocalInertia.zero
  match buildMotionState rb.physics_mode rigidbody_index with
  | .error e => .error e
  | .ok motion_state => .ok {
    shape := shape
    motion_state := motion_state
    rigidbody := {
      ctor_mass := rb.mass
      local_inertia := local_inertia
      linear_damping := rb.move_attenuation
      angular_damping := rb.rotation_damping
      restitution := rb.repulsion
      friction := rb.friction_force
      additional_damping := true
      deactivation_disabled := true
      kinematic := rb.physics_mode == FOLLOW_BONE } }

/-- One spring axis of a `btGeneric6DofSpringConstraint`. -/
structure SpringAxis where
  enabled : Bool
  stiffness : ℚ
deriving DecidableEq

/-- The constraint built per joint: the two body indices, the joint's
world-frame data (from which the two local frames are computed via the
engine's transform inverse and product), the limit vectors, and the six
spring axes (0-2 linear x/y/z, 3-5 angular x/y/z). -/
structure EngineConstraint where
  rigidbody_a_index : Nat
  rigidbody_b_index : Nat
  joint_position : Vector3f ℚ
  joint_rotation : Vector3f ℚ
  linear_lower_limit : Vector3f ℚ
  linear_upper_limit : Vector3f ℚ
  angular_lower_limit : Vector3f ℚ
  angular_upper_limit : Vector3f ℚ
  springs : List SpringAxis
deriving DecidableEq

/-- `constraint->enableSpring(axis, true)`. -/
def EngineConstraint.enableSpring (c : EngineConstraint) (axis : Nat) : EngineConstraint :=
  { c with springs := c.springs.set axis { c.springs.getD axis ⟨false, 0⟩ with enabled := true } }

/-- `constraint->setStiffness(axis, v)`. -/
def EngineConstraint.setStiffness (c : EngineConstraint) (axis : Nat) (v : ℚ) : EngineConstraint :=
  { c with springs := c.springs.set axis { c.springs.getD axis ⟨false, 0⟩ with stiffness := v } }

/-- One iteration of the joint construction loop of
`PhysicsWorld::PhysicsWorld`: both body indices are bounds-checked against
`this->rigidbodies.size()`, the constraint is created with limits from the
joint record, and each of the six independent `if` blocks enables a spring
axis and sets its stiffness when the corresponding spring component is
nonzero (axis 2 with the sign of `position_spring.z` flipped).  All six
springs start disabled with stiffness 0, the
`btGeneric6DofSpringConstraint` constructor's initial state. -/
def buildConstraint (rigidbody_count : Nat) (j : Joint ℚ) :
    Except ConstructionError EngineConstraint :=
  if j.rigidbody_a_index ≥ rigidbody_count then .error .InvalidIndex
  else if j.rigidbody_b_index ≥ rigidbody_count then .error .InvalidIndex
  else
    let c : EngineConstraint := {
      rigidbody_a_index := j.rigidbody_a_index
      rigidbody_b_index := j.rigidbody_b_index
      joint_position := j.position
      joint_rotation := j.rotation
      linear_lower_limit := j.position_min
      linear_upper_limit := j.position_max
      angular_lower_limit := j.rotation_min
      angular_upper_limit := j.rotation_max
      springs := List.replicate 6 ⟨false, 0⟩ }
    let c := if j.position_spring.x ≠ 0 then (c.enableSpring 0).setStiffness 0 j.position_spring.x else c
    let c := if j.position_spring.y ≠ 0 then (c.enableSpring 1).setStiffness 1 j.position_spring.y else c
    let c := if j.position_spring.z ≠ 0 then (c.enableSpring 2).setStiffness 2 (-j.position_spring.z) else c
    let c := if j.rotation_spring.x ≠ 0 then (c.enableSpring 3).setStiffness 3 j.rotation_spring.x else c
    let c := if j.rotation_spring.y ≠ 0 then (c.enableSpring 4).setStiffness 4 j.rotation_spring.y else c
    let c := if j.rotation_spring.z ≠ 0 then (c.enableSpring 5).setStiffness 5 j.rotation_spring.z else c
    .ok c

/-- The rigid-body construction loop: bodies are built and added in scene
order, with `rigidbody_index` taken from the running counter; the first
throw aborts the loop. -/
def buildBodies (rigidbody_index : Nat) :
    List (RigidBody ℚ) → Except ConstructionError (List RigidBodyData)
  | [] => .ok []
  | rb :: rest =>
    match buildRigidBodyData rigidbody_index rb with
    | .error e => .error e
    | .ok d =>
      match buildBodies (rigidbody_index + 1) rest with
      | .error e => .error e
      | .ok ds => .ok (d :: ds)

/-- The joint construction loop: constraints are built and added in scene
order; the first throw aborts the loop. -/
def buildJoints (rigidbody_count : Nat) :
    List (Joint ℚ) → Except ConstructionError (List EngineConstraint)
  | [] => .ok []
  | j :: rest =>
    match buildConstraint rigidbody_count j with
    | .error e => .error e
    | .ok c =>
      match buildJoints rigidbody_count rest with
      | .error e => .error e
      | .ok cs => .ok (c :: cs)

/-- The state `PhysicsWorld` holds after a successful constructor run
(besides the engine plumbing and the unconditionally created ground
plane): per-body data, per-joint constraints, and the transform buffer
copied from the initial snapshot. -/
structure PhysicsWorld where
  rigidbodies : List RigidBodyData
  joints : List EngineConstraint
  transform_buffer : List ℚ
deriving DecidableEq

/-- `PhysicsWorld::PhysicsWorld`: the transform buffer is copied from the
initial snapshot and its size checked against `rigidbodies.size() * 16`;
then the body loop runs, then the joint loop (with
`this->rigidbodies.size()` equal to the full body count).  A throw
anywhere destroys everything already created, so an error yields no
world state at all. -/
def constructWorld (scene : PhysicsScene ℚ) (initial_transform : List ℚ) :
    Except ConstructionError PhysicsWorld :=
  if initial_transform.length ≠ scene.rigidbodies.length * 16 then .error .SizeMismatch
  else
    match buildBodies 0 scene.rigidbodies with
    | .error e => .error e
    | .ok bodies =>
      match buildJoints bodies.length scene.joints with
      | .error e => .error e
      | .ok joints => .ok ⟨bodies, joints, initial_transform⟩

/-- One engine-resource removal performed by `PhysicsWorld::~PhysicsWorld`. -/
inductive TeardownEvent
  | removeGround
  | removeConstraint (joint_index : Nat)
  | removeRigidBody (rigidbody_index : Nat)
deriving DecidableEq

/-- `PhysicsWorld::~PhysicsWorld`: `removeRigidBody(ground)` first, then
`removeConstraint` for every joint in order, then `removeRigidBody` for
every body in order. -/
def teardownEvents (w : PhysicsWorld) : List TeardownEvent :=
  TeardownEvent.removeGround ::
    ((List.range w.joints.length).map TeardownEvent.removeConstraint ++
      (List.range w.rigidbodies.length).map TeardownEvent.removeRigidBody)

/-- Every constraint removal precedes every rigid-body removal. -/
def constraintsBeforeRigidBodies (evs : List TeardownEvent) : Prop :=
  ∀ (i j a b : Nat), evs[i]? = some (TeardownEvent.removeConstraint a) →
    evs[j]? = some (TeardownEvent.removeRigidBody b) → i < j

/-- Every rigid-body removal precedes every ground removal. -/
def rigidBodiesBeforeGround (evs : List TeardownEvent) : Prop :=
  ∀ (i j a : Nat), evs[i]? = some (TeardownEvent.removeRigidBody a) →
    evs[j]? = some TeardownEvent.removeGround → i < j

/-- The ground removal happens before everything else. -/
def groundRemovedFirst (evs : List TeardownEvent) : Prop :=
  ∀ (j : Nat), evs[j]? = some TeardownEvent.removeGround → j = 0

/-- The broadphase proxy data read by the filter callback, with `uid`
standing for the proxy's identity (the pointer compared against
`ground_proxy`). -/
structure btBroadphaseProxy where
  uid : Nat
  m_collisionFilterGroup : Nat
  m_collisionFilterMask : Nat
deriving DecidableEq

/-- `PhysicsFilterCallback::needBroadphaseCollision`, with the stored
`ground_proxy` passed as the uid `ground_proxy`. -/
def needBroadphaseCollision (ground_proxy : Nat) (proxy0 proxy1 : btBroadphaseProxy) : Bool :=
  let is_ground := proxy0.uid == ground_proxy || proxy1.uid == ground_proxy
  let proxy0_collides := proxy0.m_collisionFilterGroup &&& proxy1.m_collisionFilterMask != 0
  let proxy1_collides := proxy0.m_collisionFilterMask &&& proxy1.m_collisionFilterGroup != 0
  (proxy0_collides && proxy1_collides) || is_ground

/-- `btMatrix3x3`, stored as its three rows. -/
structure btMatrix3x3 where
  r0 : Vector3f ℚ
  r1 : Vector3f ℚ
  r2 : Vector3f ℚ
deriving DecidableEq

/-- `btTransform`: a basis matrix and an origin vector. -/
structure btTransform where
  basis : btMatrix3x3
  origin : Vector3f ℚ
deriving DecidableEq

/-- `btTransform::setFromOpenGLMatrix` applied to the 16 column-major
floats of transform-buffer slot `i` (`&buffer[i * 16]`): row `r` of the
basis is `(m[r], m[4+r], m[8+r])` and the origin is `(m[12], m[13],
m[14])`. -/
def readSlot (buffer : List ℚ) (i : Nat) : btTransform where
  basis := {
    r0 := ⟨buffer.getD (16 * i + 0) 0, buffer.getD (16 * i + 4) 0, buffer.getD (16 * i + 8) 0⟩
    r1 := ⟨buffer.getD (16 * i + 1) 0, buffer.getD (16 * i + 5) 0, buffer.getD (16 * i + 9) 0⟩
    r2 := ⟨buffer.getD (16 * i + 2) 0, buffer.getD (16 * i + 6) 0, buffer.getD (16 * i + 10) 0⟩ }
  origin := ⟨buffer.getD (16 * i + 12) 0, buffer.getD (16 * i + 13) 0, buffer.getD (16 * i + 14) 0⟩

/-- `btTransform::getOpenGLMatrix`: the 16 column-major floats, with the
fourth row of the 4x4 matrix written as `0, 0, 0, 1`. -/
def openGLMatrix (t : btTransform) : List ℚ :=
  [t.basis.r0.x, t.basis.r1.x, t.basis.r2.x, 0,
   t.basis.r0.y, t.basis.r1.y, t.basis.r2.y, 0,
   t.basis.r0.z, t.basis.r1.z, t.basis.r2.z, 0,
   t.origin.x, t.origin.y, t.origin.z, 1]

/-- Storing a transform's OpenGL matrix into buffer slot `i`
(`getOpenGLMatrix(&buffer[i * 16])`). -/
def writeSlot (buffer : List ℚ) (i : Nat) (t : btTransform) : List ℚ :=
  buffer.take (16 * i) ++ openGLMatrix t ++ buffer.drop (16 * i + 16)

/-- `getWorldTransform` of all three motion-state classes: each reads its
own slot of the world's transform buffer. -/
def motionStateRead (ms : MotionStateKind) (buffer : List ℚ) : btTransform :=
  match ms with
  | .followBone i => readSlot buffer i
  | .physics i => readSlot buffer i
  | .physicsPlusBone i => readSlot buffer i

/-- `setWorldTransform` of the three motion-state classes:
`FollowBoneMotionState` has an empty body; `PhysicsMotionState` stores the
whole transform; `PhysicsPlusBoneDynamicMotionState` first reads the slot's
current transform, overwrites the incoming transform's origin with the
slot's origin, and stores the result. -/
def motionStateWrite (ms : MotionStateKind) (buffer : List ℚ) (t : btTransform) : List ℚ :=
  match ms with
  | .followBone _ => buffer
  | .physics i => writeSlot buffer i t
  | .physicsPlusBone i =>
    let original_transform := readSlot buffer i
    writeSlot buffer i { t with origin := original_transform.origin }

/-- One `setWorldTransform` callback issued by the engine during
`stepSimulation`, addressed to the body at index `call.1` (a no-op when no
such body exists; the engine only addresses bodies it owns). -/
def applyWriteCall (w : PhysicsWorld) (buffer : List ℚ) (call : Nat × btTransform) : List ℚ :=
  match w.rigidbodies[call.1]? with
  | some d => motionStateWrite d.motion_state buffer call.2
  | none => buffer

/-- The transform buffer after one `Step()`, modelled as the engine
issuing an arbitrary finite sequence of `setWorldTransform` callbacks to
the world's bodies (`getWorldTransform` callbacks do not change the
buffer, so only the writes matter for the buffer's evolution). -/
def stepBuffer (w : PhysicsWorld) (calls : List (Nat × btTransform)) : List ℚ :=
  calls.foldl (applyWriteCall w) w.transform_buffer

lemma openGLMatrix_length (t : btTransform) : (openGLMatrix t).length = 16 := by
  simp [openGLMatrix]

lemma writeSlot_length (buffer : List ℚ) (i : Nat) (t : btTransform)
    (h : 16 * i + 16 ≤ buffer.length) : (writeSlot buffer i t).length = buffer.length := by
  simp only [writeSlot, List.length_append, List.length_take, List.length_drop,
    openGLMatrix_length]
  omega

lemma writeSlot_getD_out (buffer : List ℚ) (i k : Nat) (t : btTransform)
    (h : 16 * i + 16 ≤ buffer.length) (hk : k < 16 * i ∨ 16 * i + 16 ≤ k) :
    (writeSlot buffer i t).getD k 0 = buffer.getD k 0 := by
  simp only [writeSlot, List.getD_eq_getElem?_getD, List.getElem?_append,
    List.getElem?_take, List.getElem?_drop, List.length_append, List.length_take,
    openGLMatrix_length]
  split_ifs
  all_goals first
  | omega
  | rfl
  | (congr 2; omega)

lemma writeSlot_getD_mid (buffer : List ℚ) (i c : Nat) (t : btTransform)
    (hc : c < 16) (h : 16 * i + 16 ≤ buffer.length) :
    (writeSlot buffer i t).getD (16 * i + c) 0 = (openGLMatrix t).getD c 0 := by
  simp only [writeSlot, List.getD_eq_getElem?_getD, List.getElem?_append,
    List.getElem?_take, List.getElem?_drop, List.length_append, List.length_take,
    openGLMatrix_length]
  split_ifs
  all_goals first
  | omega
  | rfl
  | (congr 2; omega)

lemma readSlot_congr (b1 b2 : List ℚ) (i : Nat)
    (h : ∀ c, c < 16 → b1.getD (16 * i + c) 0 = b2.getD (16 * i + c) 0) :
    readSlot b1 i = readSlot b2 i := by
  unfold readSlot
  rw [h 0 (by norm_num), h 1 (by norm_num), h 2 (by norm_num), h 4 (by norm_num),
    h 5 (by norm_num), h 6 (by norm_num), h 8 (by norm_num), h 9 (by norm_num),
    h 10 (by norm_num), h 12 (by norm_num), h 13 (by norm_num), h 14 (by norm_num)]

lemma readSlot_writeSlot_self (buffer : List ℚ) (i : Nat) (t : btTransform)
    (h : 16 * i + 16 ≤ buffer.length) :
    readSlot (writeSlot buffer i t) i = ⟨t.basis, t.origin⟩ := by
  unfold readSlot
  rw [writeSlot_getD_mid buffer i 0 t (by norm_num) h,
    writeSlot_getD_mid buffer i 1 t (by norm_num) h,
    writeSlot_getD_mid buffer i 2 t (by norm_num) h,
    writeSlot_getD_mid buffer i 4 t (by norm_num) h,
    writeSlot_getD_mid buffer i 5 t (by norm_num) h,
    writeSlot_getD_mid buffer i 6 t (by norm_num) h,
    writeSlot_getD_mid buffer i 8 t (by norm_num) h,
    writeSlot_getD_mid buffer i 9 t (by norm_num) h,
    writeSlot_getD_mid buffer i 10 t (by norm_num) h,
    writeSlot_getD_mid buffer i 12 t (by norm_num) h,
    writeSlot_getD_mid buffer i 13 t (by norm_num) h,
    writeSlot_getD_mid buffer i 14 t (by norm_num) h]
  rfl

lemma motionStateWrite_ppb_origin_getD (buffer : List ℚ) (i : Nat) (t : btTransform)
    (c : Nat) (hc : c = 12 ∨ c = 13 ∨ c = 14) (h : 16 * i + 16 ≤ buffer.length) :
    (motionStateWrite (.physicsPlusBone i) buffer t).getD (16 * i + c) 0 =
      buffer.getD (16 * i + c) 0 := by
  show (writeSlot buffer i _).getD (16 * i + c) 0 = _
  rcases hc with rfl | rfl | rfl <;>
    rw [writeSlot_getD_mid buffer i _ _ (by norm_num) h] <;> rfl

lemma buildMotionState_index (m k : Nat) (ms : MotionStateKind)
    (h : buildMotionState m k = .ok ms) : ms.index = k := by
  unfold buildMotionState at h
  split_ifs at h <;> cases h <;> rfl

lemma buildRigidBodyData_ok (k : Nat) (rb : RigidBody ℚ) (d : RigidBodyData)
    (h : buildRigidBodyData k rb = .ok d) :
    d.motion_state.index = k ∧
    buildMotionState rb.physics_mode k = .ok d.motion_state ∧
    d.rigidbody.ctor_mass = rb.mass ∧
    d.rigidbody.kinematic = (rb.physics_mode == FOLLOW_BONE) := by
  unfold buildRigidBodyData at h
  cases hs : buildShape rb with
  | error e => rw [hs] at h; cases h
  | ok shape =>
    rw [hs] at h
    cases hm : buildMotionState rb.physics_mode k with
    | error e => rw [hm] at h; cases h
    | ok ms =>
      rw [hm] at h
      injection h with h'
      subst h'
      exact ⟨buildMotionState_index _ _ _ hm, rfl, rfl, rfl⟩

lemma buildBodies_ok (l : List (RigidBody ℚ)) : ∀ (k : Nat) (ds : List RigidBodyData),
    buildBodies k l = .ok ds →
    ds.length = l.length ∧
      ∀ (j : Nat) (d : RigidBodyData), ds[j]? = some d →
        ∃ rb, l[j]? = some rb ∧ buildRigidBodyData (k + j) rb = .ok d := by
  induction l with
  | nil =>
    intro k ds h
    cases h
    simp
  | cons rb rest ih =>
    intro k ds h
    unfold buildBodies at h
    cases hd : buildRigidBodyData k rb with
    | error e => rw [hd] at h; cases h
    | ok d =>
      rw [hd] at h
      cases hrest : buildBodies (k + 1) rest with
      | error e => rw [hrest] at h; cases h
      | ok ds' =>
        rw [hrest] at h
        cases h
        obtain ⟨hlen, hpt⟩ := ih (k + 1) ds' hrest
        refine ⟨by simp [hlen], ?_⟩
        intro j d' hj
        cases j with
        | zero =>
          simp only [List.getElem?_cons_zero, Option.some.injEq] at hj
          subst hj
          exact ⟨rb, by simp, by simpa using hd⟩
        | succ j' =>
          simp only [List.getElem?_cons_succ] at hj ⊢
          obtain ⟨rb', h1, h2⟩ := hpt j' d' hj
          refine ⟨rb', h1, ?_⟩
          rw [show k + (j' + 1) = k + 1 + j' by omega]
          exact h2

lemma constructWorld_ok (scene : PhysicsScene ℚ) (buf : List ℚ) (w : PhysicsWorld)
    (h : constructWorld scene buf = .ok w) :
    buf.length = scene.rigidbodies.length * 16 ∧
    buildBodies 0 scene.rigidbodies = .ok w.rigidbodies ∧
    buildJoints w.rigidbodies.length scene.joints = .ok w.joints ∧
    w.transform_buffer = buf := by
  unfold constructWorld at h
  by_cases hsz : buf.length ≠ scene.rigidbodies.length * 16
  · rw [if_pos hsz] at h; cases h
  rw [if_neg hsz] at h
  split at h
  · cases h
  · rename_i bodies hb
    split at h
    · cases h
    · rename_i joints hj
      injection h with h'
      subst h'
      exact ⟨by omega, hb, hj, rfl⟩

lemma constructWorld_motion_index (scene : PhysicsScene ℚ) (buf : List ℚ) (w : PhysicsWorld)
    (h : constructWorld scene buf = .ok w) :
    ∀ (k : Nat) (d : RigidBodyData), w.rigidbodies[k]? = some d → d.motion_state.index = k := by
  obtain ⟨-, hb, -, -⟩ := constructWorld_ok scene buf w h
  intro k d hk
  obtain ⟨-, hpt⟩ := buildBodies_ok scene.rigidbodies 0 w.rigidbodies hb
  obtain ⟨rb, -, hd⟩ := hpt k d hk
  simpa using (buildRigidBodyData_ok _ _ _ hd).1

lemma constructWorld_body_at (scene : PhysicsScene ℚ) (buf : List ℚ) (w : PhysicsWorld)
    (i : Nat) (rb : RigidBody ℚ)
    (h : constructWorld scene buf = .ok w) (hi : scene.rigidbodies[i]? = some rb) :
    ∃ d, w.rigidbodies[i]? = some d ∧ buildRigidBodyData i rb = .ok d := by
  obtain ⟨-, hb, -, -⟩ := constructWorld_ok scene buf w h
  obtain ⟨hlen, hpt⟩ := buildBodies_ok scene.rigidbodies 0 w.rigidbodies hb
  have hilt : i < w.rigidbodies.length := by
    rw [hlen]
    exact (List.getElem?_eq_some.mp hi).1
  obtain ⟨d, hd⟩ : ∃ d, w.rigidbodies[i]? = some d := by
    rw [List.getElem?_eq_getElem hilt]
    exact ⟨_, rfl⟩
  obtain ⟨rb', h1, h2⟩ := hpt i d hd
  rw [hi] at h1
  cases h1
  exact ⟨d, hd, by simpa using h2⟩

lemma applyWriteCall_length (w : PhysicsWorld) (buffer : List ℚ) (call : Nat × btTransform)
    (hIdx : ∀ (k : Nat) (d : RigidBodyData), w.rigidbodies[k]? = some d →
      d.motion_state.index = k)
    (hlen : buffer.length = w.rigidbodies.length * 16) :
    (applyWriteCall w buffer call).length = buffer.length := by
  obtain ⟨a, t⟩ := call
  unfold applyWriteCall
  cases hcall : w.rigidbodies[a]? with
  | none => rfl
  | some d =>
    have hk := hIdx _ _ hcall
    have hlt : a < w.rigidbodies.length := (List.getElem?_eq_some.mp hcall).1
    obtain ⟨shape, ms, body⟩ := d
    cases ms with
    | followBone j => rfl
    | physics j =>
      have hj : j = a := hk
      subst hj
      exact writeSlot_length _ _ _ (by omega)
    | physicsPlusBone j =>
      have hj : j = a := hk
      subst hj
      exact writeSlot_length _ _ _ (by omega)

lemma applyWriteCall_getD_protected (w : PhysicsWorld) (buffer : List ℚ)
    (call : Nat × btTransform) (i : Nat) (di : RigidBodyData) (c : Nat)
    (hIdx : ∀ (k : Nat) (d : RigidBodyData), w.rigidbodies[k]? = some d →
      d.motion_state.index = k)
    (hlen : buffer.length = w.rigidbodies.length * 16)
    (hi : w.rigidbodies[i]? = some di)
    (hprot : (di.motion_state = .followBone i ∧ c < 16) ∨
      (di.motion_state = .physicsPlusBone i ∧ (c = 12 ∨ c = 13 ∨ c = 14))) :
    (applyWriteCall w buffer call).getD (16 * i + c) 0 = buffer.getD (16 * i + c) 0 := by
  have hc16 : c < 16 := by rcases hprot with ⟨-, h⟩ | ⟨-, h⟩ <;> omega
  obtain ⟨a, t⟩ := call
  unfold applyWriteCall
  cases hcall : w.rigidbodies[a]? with
  | none => rfl
  | some d =>
    have hk := hIdx _ _ hcall
    have hlt : a < w.rigidbodies.length := (List.getElem?_eq_some.mp hcall).1
    show (motionStateWrite d.motion_state buffer t).getD (16 * i + c) 0 =
      buffer.getD (16 * i + c) 0
    by_cases hji : a = i
    · subst hji
      rw [hcall] at hi
      injection hi with hdi
      subst hdi
      rcases hprot with ⟨hms, -⟩ | ⟨hms, hc⟩
      · rw [hms]
        rfl
      · rw [hms]
        exact motionStateWrite_ppb_origin_getD buffer a t c hc (by omega)
    · obtain ⟨shape, ms, body⟩ := d
      cases ms with
      | followBone j => rfl
      | physics j =>
        have hj : j = a := hk
        subst hj
        exact writeSlot_getD_out buffer j _ t (by omega) (by omega)
      | physicsPlusBone j =>
        have hj : j = a := hk
        subst hj
        exact writeSlot_getD_out buffer j _ _ (by omega) (by omega)

lemma foldl_applyWriteCall_getD (w : PhysicsWorld) (i : Nat) (di : RigidBodyData) (c : Nat)
    (hIdx : ∀ (k : Nat) (d : RigidBodyData), w.rigidbodies[k]? = some d →
      d.motion_state.index = k)
    (hi : w.rigidbodies[i]? = some di)
    (hprot : (di.motion_state = .followBone i ∧ c < 16) ∨
      (di.motion_state = .physicsPlusBone i ∧ (c = 12 ∨ c = 13 ∨ c = 14))) :
    ∀ (calls : List (Nat × btTransform)) (buffer : List ℚ),
      buffer.length = w.rigidbodies.length * 16 →
      (calls.foldl (applyWriteCall w) buffer).getD (16 * i + c) 0 =
        buffer.getD (16 * i + c) 0 := by
  intro calls
  induction calls with
  | nil => intro buffer _; rfl
  | cons call rest ih =>
    intro buffer hb
    rw [List.foldl_cons,
      ih (applyWriteCall w buffer call)
        (by rw [applyWriteCall_length w buffer call hIdx hb]; exact hb)]
    exact applyWriteCall_getD_protected w buffer call i di c hIdx hb hi hprot

lemma constructWorld_lengths (scene : PhysicsScene ℚ) (buf : List ℚ) (w : PhysicsWorld)
    (h : constructWorld scene buf = .ok w) :
    w.rigidbodies.length = scene.rigidbodies.length ∧
    w.transform_buffer.length = w.rigidbodies.length * 16 := by
  obtain ⟨hsz, hb, -, htb⟩ := constructWorld_ok scene buf w h
  have hlen := (buildBodies_ok scene.rigidbodies 0 w.rigidbodies hb).1
  exact ⟨hlen, by rw [htb, hsz, hlen]⟩

lemma constructWorld_motion_kind (scene : PhysicsScene ℚ) (buf : List ℚ) (w : PhysicsWorld)
    (i : Nat) (rb : RigidBody ℚ)
    (h : constructWorld scene buf = .ok w) (hi : scene.rigidbodies[i]? = some rb) :
    ∃ d, w.rigidbodies[i]? = some d ∧
      buildMotionState rb.physics_mode i = .ok d.motion_state := by
  obtain ⟨d, hd, hbuild⟩ := constructWorld_body_at scene buf w i rb h hi
  exact ⟨d, hd, (buildRigidBodyData_ok _ _ _ hbuild).2.1⟩

/-- Claim C4: for a `PhysicsPlusBone` body at index `i`, the bridge built
by world construction is the `PhysicsPlusBoneDynamicMotionState`; its
`setWorldTransform(T)` stores into buffer slot `i` the transform with
`T`'s rotation and the translation already present in slot `i`; hence
after one `Step()` (any sequence of engine write callbacks) the slot's
translation equals the translation present immediately before the step. -/
theorem c4_physics_plus_bone_pins_translation
    (scene : PhysicsScene ℚ) (buf : List ℚ) (w : PhysicsWorld) (i : Nat) (rb : RigidBody ℚ)
    (hok : constructWorld scene buf = .ok w)
    (hi : scene.rigidbodies[i]? = some rb)
    (hmode : rb.physics_mode = PHYSICS_PLUS_BONE) :
    ∃ d, w.rigidbodies[i]? = some d ∧ d.motion_state = .physicsPlusBone i ∧
      (∀ (buffer : List ℚ) (t : btTransform), 16 * i + 16 ≤ buffer.length →
        readSlot (motionStateWrite d.motion_state buffer t) i =
          { basis := t.basis, origin := (readSlot buffer i).origin })
      ∧ ∀ calls : List (Nat × btTransform),
          (readSlot (stepBuffer w calls) i).origin = (readSlot w.transform_buffer i).origin := by
  obtain ⟨d, hd, hbuild⟩ := constructWorld_motion_kind scene buf w i rb hok hi
  rw [hmode] at hbuild
  have hms : d.motion_state = .physicsPlusBone i := by
    have : buildMotionState PHYSICS_PLUS_BONE i = .ok (.physicsPlusBone i) := rfl
    rw [this] at hbuild
    injection hbuild with h'
    exact h'.symm
  refine ⟨d, hd, hms, ?_, ?_⟩
  · intro buffer t hb
    rw [hms]
    show readSlot (writeSlot buffer i _) i = _
    rw [readSlot_writeSlot_self buffer i _ hb]
  · intro calls
    have hIdx := constructWorld_motion_index scene buf w hok
    have hlen := (constructWorld_lengths scene buf w hok).2
    have h12 := foldl_applyWriteCall_getD w i d 12 hIdx hd
      (Or.inr ⟨hms, by norm_num⟩) calls w.transform_buffer hlen
    have h13 := foldl_applyWriteCall_getD w i d 13 hIdx hd
      (Or.inr ⟨hms, by norm_num⟩) calls w.transform_buffer hlen
    have h14 := foldl_applyWriteCall_getD w i d 14 hIdx hd
      (Or.inr ⟨hms, by norm_num⟩) calls w.transform_buffer hlen
    unfold stepBuffer readSlot
    simp only
    rw [h12, h13, h14]

/-- Claim C9: for a `FollowBone` body at index `i`, the bridge built by
world construction is the `FollowBoneMotionState`; its
`getWorldTransform` returns the transform stored in buffer slot `i`, its
`setWorldTransform` leaves the buffer unchanged, and one `Step()` (any
sequence of engine write callbacks) never changes any of the 16 entries
of that body's buffer slot. -/
theorem c9_follow_bone_inert
    (scene : PhysicsScene ℚ) (buf : List ℚ) (w : PhysicsWorld) (i : Nat) (rb : RigidBody ℚ)
    (hok : constructWorld scene buf = .ok w)
    (hi : scene.rigidbodies[i]? = some rb)
    (hmode : rb.physics_mode = FOLLOW_BONE) :
    ∃ d, w.rigidbodies[i]? = some d ∧ d.motion_state = .followBone i ∧
      (∀ buffer : List ℚ, motionStateRead d.motion_state buffer = readSlot buffer i)
      ∧ (∀ (buffer : List ℚ) (t : btTransform), motionStateWrite d.motion_state buffer t = buffer)
      ∧ ∀ (calls : List (Nat × btTransform)) (c : Nat), c < 16 →
          (stepBuffer w calls).getD (16 * i + c) 0 =
            w.transform_buffer.getD (16 * i + c) 0 := by
  obtain ⟨d, hd, hbuild⟩ := constructWorld_motion_kind scene buf w i rb hok hi
  rw [hmode] at hbuild
  have hms : d.motion_state = .followBone i := by
    have : buildMotionState FOLLOW_BONE i = .ok (.followBone i) := rfl
    rw [this] at hbuild
    injection hbuild with h'
    exact h'.symm
  refine ⟨d, hd, hms, ?_, ?_, ?_⟩
  · intro buffer
    rw [hms]
    rfl
  · intro buffer t
    rw [hms]
    rfl
  · intro calls c hc
    have hIdx := constructWorld_motion_index scene buf w hok
    have hlen := (constructWorld_lengths scene buf w hok).2
    exact foldl_applyWriteCall_getD w i d c hIdx hd
      (Or.inl ⟨hms, hc⟩) calls w.transform_buffer hlen

/-- A concrete fully-simulated (`PHYSICS`) sphere body. -/
def rbPhysicsW : RigidBody ℚ where
  collision_group := 1
  collision_mask := 1
  shape_type := SPHERE
  physics_mode := PHYSICS
  shape_size := ⟨1, 1, 1⟩
  shape_position := ⟨0, 0, 0⟩
  shape_rotation := ⟨0, 0, 0⟩
  mass := 1
  move_attenuation := 0
  rotation_damping := 0
  repulsion := 0
  friction_force := 0

/-- A concrete `FOLLOW_BONE` body whose decoded mass field is 5. -/
def rbFollowBoneW : RigidBody ℚ := { rbPhysicsW with physics_mode := FOLLOW_BONE, mass := 5 }

/-- A concrete `PHYSICS_PLUS_BONE` body. -/
def rbPlusBoneW : RigidBody ℚ := { rbPhysicsW with physics_mode := PHYSICS_PLUS_BONE }

/-- A 16-entry (one-slot) transform buffer. -/
def buf16 : List ℚ := List.replicate 16 0

/-- Fallback world used only to extract the result of a successful
construction. -/
def emptyWorld : PhysicsWorld := ⟨[], [], []⟩

/-- One-body scene with the mass-5 `FOLLOW_BONE` body. -/
def sceneFollowBoneW : PhysicsScene ℚ := ⟨[rbFollowBoneW], []⟩

/-- One-body scene with the `PHYSICS_PLUS_BONE` body. -/
def scenePlusBoneW : PhysicsScene ℚ := ⟨[rbPlusBoneW], []⟩

/-- One-body scene with the `PHYSICS` body. -/
def scenePhysicsW : PhysicsScene ℚ := ⟨[rbPhysicsW], []⟩

/-- The world constructed from `scenePlusBoneW`. -/
def wPlusBoneW : PhysicsWorld := ((constructWorld scenePlusBoneW buf16).toOption).getD emptyWorld

/-- The world constructed from `sceneFollowBoneW`. -/
def wFollowBoneW : PhysicsWorld := ((constructWorld sceneFollowBoneW buf16).toOption).getD emptyWorld

/-- The world constructed from `scenePhysicsW`. -/
def wPhysicsW : PhysicsWorld := ((constructWorld scenePhysicsW buf16).toOption).getD emptyWorld

/-- Claim C1: at a `FOLLOW_BONE` body whose decoded mass field is 5, world
construction succeeds, the effective-mass rule leaves the local inertia
zero and marks the body kinematic, but the engine rigid body's
construction-info mass is the decoded 5, not 0: the code passes
`rigidbody_item.mass` instead of the computed effective mass. -/
theorem c1_follow_bone_ctor_mass
    : ∃ w, constructWorld sceneFollowBoneW buf16 = .ok w ∧
      ∃ d, w.rigidbodies[0]? = some d ∧
        rbFollowBoneW.physics_mode = FOLLOW_BONE ∧
        d.rigidbody.ctor_mass = 5 ∧
        ¬d.rigidbody.ctor_mass = 0 ∧
        d.rigidbody.kinematic = true ∧
        d.rigidbody.local_inertia = LocalInertia.zero := by
  refine ⟨_, rfl, _, rfl, rfl, rfl, by norm_num [rbFollowBoneW, rbPhysicsW], rfl, rfl⟩

/-- Witness for C4 at the one-body `PHYSICS_PLUS_BONE` scene. -/
theorem c4_witness :
    ∃ d, wPlusBoneW.rigidbodies[0]? = some d ∧ d.motion_state = .physicsPlusBone 0 ∧
      (∀ (buffer : List ℚ) (t : btTransform), 16 * 0 + 16 ≤ buffer.length →
        readSlot (motionStateWrite d.motion_state buffer t) 0 =
          { basis := t.basis, origin := (readSlot buffer 0).origin })
      ∧ ∀ calls : List (Nat × btTransform),
          (readSlot (stepBuffer wPlusBoneW calls) 0).origin =
            (readSlot wPlusBoneW.transform_buffer 0).origin :=
  c4_physics_plus_bone_pins_translation scenePlusBoneW buf16 wPlusBoneW 0 rbPlusBoneW rfl rfl rfl

/-- Witness for C9 at the one-body `FOLLOW_BONE` scene. -/
theorem c9_witness :
    ∃ d, wFollowBoneW.rigidbodies[0]? = some d ∧ d.motion_state = .followBone 0 ∧
      (∀ buffer : List ℚ, motionStateRead d.motion_state buffer = readSlot buffer 0)
      ∧ (∀ (buffer : List ℚ) (t : btTransform), motionStateWrite d.motion_state buffer t = buffer)
      ∧ ∀ (calls : List (Nat × btTransform)) (c : Nat), c < 16 →
          (stepBuffer wFollowBoneW calls).getD (16 * 0 + c) 0 =
            wFollowBoneW.transform_buffer.getD (16 * 0 + c) 0 :=
  c9_follow_bone_inert sceneFollowBoneW buf16 wFollowBoneW 0 rbFollowBoneW rfl rfl rfl

/-- Counterexample for C6: for the world built from a one-body scene, the
destructor removes the ground plane first, so the rigid-body removal at
position 1 does not precede the ground removal at position 0. -/
theorem c6_counterexample :
    constructWorld scenePhysicsW buf16 = .ok wPhysicsW ∧
      ¬rigidBodiesBeforeGround (teardownEvents wPhysicsW) := by
  refine ⟨rfl, ?_⟩
  intro h
  have h10 := h 1 0 0 rfl rfl
  omega

/-- Claim C6 (amended): in the destructor's removal sequence every
constraint removal precedes every rigid-body removal, and the ground
plane is removed first of all, before any constraint or body. -/
theorem c6_teardown_order (w : PhysicsWorld) :
    constraintsBeforeRigidBodies (teardownEvents w) ∧ groundRemovedFirst (teardownEvents w) := by
  constructor
  · intro i j a b hi hj
    cases i with
    | zero => simp [teardownEvents] at hi
    | succ i' =>
      cases j with
      | zero => simp [teardownEvents] at hj
      | succ j' =>
        simp only [teardownEvents, List.getElem?_cons_succ] at hi hj
        have hlenA : ((List.range w.joints.length).map TeardownEvent.removeConstraint).length =
            w.joints.length := by simp
        have hiA : i' < w.joints.length := by
          by_contra hge
          push_neg at hge
          rw [List.getElem?_append_right (by omega)] at hi
          simp at hi
        have hjB : w.joints.length ≤ j' := by
          by_contra hlt
          push_neg at hlt
          rw [List.getElem?_append] at hj
          rw [if_pos (by omega)] at hj
          simp at hj
        omega
  · intro j hj
    cases j with
    | zero => rfl
    | succ j' =>
      exfalso
      simp only [teardownEvents, List.getElem?_cons_succ] at hj
      have hmem := List.getElem?_mem hj
      simp at hmem

/-- Witness for the amended C6 at the concretely constructed one-body
world. -/
theorem c6_witness :
    constraintsBeforeRigidBodies (teardownEvents wPhysicsW) ∧
      groundRemovedFirst (teardownEvents wPhysicsW) :=
  c6_teardown_order wPhysicsW

/-- Claim C5: the broadphase filter passes exactly when either proxy is
the ground proxy or both directed group/mask intersections are nonzero;
in particular proxies disjoint in either direction and distinct from the
ground never pass, while any pair involving the ground always passes. -/
theorem c5_broadphase_filter (ground_proxy : Nat) (proxy0 proxy1 : btBroadphaseProxy) :
    (needBroadphaseCollision ground_proxy proxy0 proxy1 = true ↔
      (proxy0.uid = ground_proxy ∨ proxy1.uid = ground_proxy) ∨
        (proxy0.m_collisionFilterGroup &&& proxy1.m_collisionFilterMask ≠ 0 ∧
          proxy0.m_collisionFilterMask &&& proxy1.m_collisionFilterGroup ≠ 0))
    ∧ (proxy0.uid ≠ ground_proxy → proxy1.uid ≠ ground_proxy →
        (proxy0.m_collisionFilterGroup &&& proxy1.m_collisionFilterMask = 0 ∨
          proxy0.m_collisionFilterMask &&& proxy1.m_collisionFilterGroup = 0) →
        needBroadphaseCollision ground_proxy proxy0 proxy1 = false)
    ∧ ((proxy0.uid = ground_proxy ∨ proxy1.uid = ground_proxy) →
        needBroadphaseCollision ground_proxy proxy0 proxy1 = true) := by
  unfold needBroadphaseCollision
  refine ⟨?_, ?_, ?_⟩ <;>
    simp only [Bool.or_eq_true, Bool.and_eq_true, bne_iff_ne, beq_iff_eq, ne_eq,
      Bool.or_eq_false_iff, Bool.and_eq_false_iff, bne_eq_false_iff_eq,
      beq_eq_false_iff_ne, not_not] <;>
    tauto

/-- Witness for C5: two non-ground proxies with disjoint group/mask in one
direction never pass; a ground proxy always passes. -/
theorem c5_witness :
    needBroadphaseCollision 9 ⟨1, 1, 2⟩ ⟨2, 1, 2⟩ = false ∧
      needBroadphaseCollision 9 ⟨9, 1, 2⟩ ⟨2, 1, 2⟩ = true :=
  ⟨(c5_broadphase_filter 9 ⟨1, 1, 2⟩ ⟨2, 1, 2⟩).2.1 (by decide) (by decide) (by decide),
    (c5_broadphase_filter 9 ⟨9, 1, 2⟩ ⟨2, 1, 2⟩).2.2 (Or.inl rfl)⟩

set_option maxHeartbeats 1600000 in
lemma buildConstraint_ok_springs (n : Nat) (j : Joint ℚ) (c : EngineConstraint)
    (h : buildConstraint n j = .ok c) :
    c.springs = [
      if j.position_spring.x ≠ 0 then ⟨true, j.position_spring.x⟩ else ⟨false, 0⟩,
      if j.position_spring.y ≠ 0 then ⟨true, j.position_spring.y⟩ else ⟨false, 0⟩,
      if j.position_spring.z ≠ 0 then ⟨true, -j.position_spring.z⟩ else ⟨false, 0⟩,
      if j.rotation_spring.x ≠ 0 then ⟨true, j.rotation_spring.x⟩ else ⟨false, 0⟩,
      if j.rotation_spring.y ≠ 0 then ⟨true, j.rotation_spring.y⟩ else ⟨false, 0⟩,
      if j.rotation_spring.z ≠ 0 then ⟨true, j.rotation_spring.z⟩ else ⟨false, 0⟩] := by
  unfold buildConstraint at h
  by_cases h1 : j.rigidbody_a_index ≥ n
  · rw [if_pos h1] at h; cases h
  rw [if_neg h1] at h
  by_cases h2 : j.rigidbody_b_index ≥ n
  · rw [if_pos h2] at h; cases h
  rw [if_neg h2] at h
  injection h with h'
  subst h'
  clear h1 h2
  split_ifs <;>
    simp_all [EngineConstraint.enableSpring, EngineConstraint.setStiffness, List.replicate]

/-- Modelled from the claim's axis numbering: the spring field component
feeding constraint axis 0-5 (linear x, y, z then angular x, y, z). -/
def springSourceComponent (j : Joint ℚ) : Nat → ℚ
  | 0 => j.position_spring.x
  | 1 => j.position_spring.y
  | 2 => j.position_spring.z
  | 3 => j.rotation_spring.x
  | 4 => j.rotation_spring.y
  | 5 => j.rotation_spring.z
  | _ + 6 => 0

/-- Claim C7: in the constructed 6-DOF constraint, axis `a` has its spring
enabled iff the corresponding spring component is nonzero, with stiffness
equal to that component except on axis 2 where it is the negation of
`position_spring.z`; components equal to 0 leave the spring disabled. -/
theorem c7_spring_axes (n : Nat) (j : Joint ℚ) (c : EngineConstraint)
    (h : buildConstraint n j = .ok c) (axis : Nat) (haxis : axis < 6) :
    ((c.springs.getD axis ⟨false, 0⟩).enabled = true ↔ springSourceComponent j axis ≠ 0)
    ∧ (springSourceComponent j axis ≠ 0 →
        (c.springs.getD axis ⟨false, 0⟩).stiffness =
          if axis = 2 then -springSourceComponent j axis else springSourceComponent j axis)
    ∧ (springSourceComponent j axis = 0 →
        (c.springs.getD axis ⟨false, 0⟩).enabled = false) := by
  rw [buildConstraint_ok_springs n j c h]
  interval_cases axis <;>
    (refine ⟨?_, ?_, ?_⟩ <;>
      simp only [springSourceComponent, List.getD_cons_zero, List.getD_cons_succ] <;>
      split_ifs <;> simp_all)

/-- A concrete joint with mixed zero and nonzero spring components. -/
def jointSpringW : Joint ℚ where
  type := SPRING_6DOF
  rigidbody_a_index := 0
  rigidbody_b_index := 0
  position := ⟨0, 0, 0⟩
  rotation := ⟨0, 0, 0⟩
  position_min := ⟨0, 0, 0⟩
  position_max := ⟨0, 0, 0⟩
  rotation_min := ⟨0, 0, 0⟩
  rotation_max := ⟨0, 0, 0⟩
  position_spring := ⟨1, 0, 3⟩
  rotation_spring := ⟨0, 2, 0⟩

/-- Witness for C7 at axis 2 of a concrete joint (nonzero `z` component,
negated stiffness). -/
theorem c7_witness :
    ∃ c, buildConstraint 1 jointSpringW = .ok c ∧
      (((c.springs.getD 2 ⟨false, 0⟩).enabled = true ↔ springSourceComponent jointSpringW 2 ≠ 0)
      ∧ (springSourceComponent jointSpringW 2 ≠ 0 →
          (c.springs.getD 2 ⟨false, 0⟩).stiffness =
            if 2 = 2 then -springSourceComponent jointSpringW 2
            else springSourceComponent jointSpringW 2)
      ∧ (springSourceComponent jointSpringW 2 = 0 →
          (c.springs.getD 2 ⟨false, 0⟩).enabled = false)) :=
  ⟨_, rfl, c7_spring_axes 1 jointSpringW _ rfl 2 (by norm_num)⟩

lemma buildConstraint_error_invalid (n : Nat) (j : Joint ℚ) (e : ConstructionError)
    (h : buildConstraint n j = .error e) : e = .InvalidIndex := by
  unfold buildConstraint at h
  by_cases h1 : j.rigidbody_a_index ≥ n
  · rw [if_pos h1] at h; injection h with h'; exact h'.symm
  rw [if_neg h1] at h
  by_cases h2 : j.rigidbody_b_index ≥ n
  · rw [if_pos h2] at h; injection h with h'; exact h'.symm
  rw [if_neg h2] at h
  cases h

lemma buildConstraint_ok_bounds (n : Nat) (j : Joint ℚ) (c : EngineConstraint)
    (h : buildConstraint n j = .ok c) :
    j.rigidbody_a_index < n ∧ j.rigidbody_b_index < n := by
  unfold buildConstraint at h
  by_cases h1 : j.rigidbody_a_index ≥ n
  · rw [if_pos h1] at h; cases h
  rw [if_neg h1] at h
  by_cases h2 : j.rigidbody_b_index ≥ n
  · rw [if_pos h2] at h; cases h
  omega

lemma buildJoints_error_invalid_index (n : Nat) (js : List (Joint ℚ))
    (hbad : ∃ j ∈ js, n ≤ j.rigidbody_a_index ∨ n ≤ j.rigidbody_b_index) :
    buildJoints n js = .error .InvalidIndex := by
  induction js with
  | nil => simp at hbad
  | cons j0 rest ih =>
    unfold buildJoints
    cases hc : buildConstraint n j0 with
    | error e =>
      have he := buildConstraint_error_invalid n j0 e hc
      subst he
      rfl
    | ok c =>
      have hb := buildConstraint_ok_bounds n j0 c hc
      rcases hbad with ⟨j, hmem, hbadj⟩
      rcases List.mem_cons.mp hmem with rfl | hmemrest
      · omega
      · simp only [ih ⟨j, hmemrest, hbadj⟩]

lemma buildShape_ok_of_valid (rb : RigidBody ℚ)
    (h : rb.shape_type = SPHERE ∨ rb.shape_type = BOX ∨ rb.shape_type = CAPSULE) :
    ∃ s, buildShape rb = .ok s := by
  unfold buildShape
  rcases h with h | h | h <;> rw [h] <;> exact ⟨_, rfl⟩

lemma buildMotionState_ok_of_valid (m k : Nat)
    (h : m = FOLLOW_BONE ∨ m = PHYSICS ∨ m = PHYSICS_PLUS_BONE) :
    ∃ ms, buildMotionState m k = .ok ms := by
  unfold buildMotionState
  rcases h with rfl | rfl | rfl <;> exact ⟨_, rfl⟩

lemma buildRigidBodyData_ok_of_valid (k : Nat) (rb : RigidBody ℚ)
    (hshape : rb.shape_type = SPHERE ∨ rb.shape_type = BOX ∨ rb.shape_type = CAPSULE)
    (hmode : rb.physics_mode = FOLLOW_BONE ∨ rb.physics_mode = PHYSICS ∨
      rb.physics_mode = PHYSICS_PLUS_BONE) :
    ∃ d, buildRigidBodyData k rb = .ok d := by
  obtain ⟨s, hs⟩ := buildShape_ok_of_valid rb hshape
  obtain ⟨ms, hm⟩ := buildMotionState_ok_of_valid rb.physics_mode k hmode
  unfold buildRigidBodyData
  rw [hs]
  simp only [hm]
  exact ⟨_, rfl⟩

lemma buildBodies_ok_of_valid : ∀ (l : List (RigidBody ℚ)) (k : Nat),
    (∀ rb ∈ l,
      (rb.shape_type = SPHERE ∨ rb.shape_type = BOX ∨ rb.shape_type = CAPSULE) ∧
      (rb.physics_mode = FOLLOW_BONE ∨ rb.physics_mode = PHYSICS ∨
        rb.physics_mode = PHYSICS_PLUS_BONE)) →
    ∃ ds, buildBodies k l = .ok ds := by
  intro l
  induction l with
  | nil => exact fun k _ => ⟨[], rfl⟩
  | cons rb rest ih =>
    intro k hv
    obtain ⟨d, hd⟩ :=
      buildRigidBodyData_ok_of_valid k rb (hv rb (by simp)).1 (hv rb (by simp)).2
    obtain ⟨ds, hds⟩ := ih (k + 1) (fun rb' hm => hv rb' (by simp [hm]))
    unfold buildBodies
    rw [hd]
    simp only [hds]
    exact ⟨_, rfl⟩

lemma constructWorld_with_bodies (scene : PhysicsScene ℚ) (buf : List ℚ)
    (ds : List RigidBodyData)
    (hbuf : ¬buf.length ≠ scene.rigidbodies.length * 16)
    (hds : buildBodies 0 scene.rigidbodies = .ok ds) :
    constructWorld scene buf = match buildJoints ds.length scene.joints with
      | .error e => .error e
      | .ok joints => .ok ⟨ds, joints, buf⟩ := by
  unfold constructWorld
  rw [if_neg hbuf, hds]

/-- Claim C8 (amended): when construction reaches the joint loop — the
transform buffer has the right size and every rigid body has a valid
shape type and physics mode — a scene containing a joint with an
out-of-range body index makes `constructWorld` fail with `InvalidIndex`,
returning no world (no bodies or constraints are retained on error). -/
theorem c8_invalid_index (scene : PhysicsScene ℚ) (buf : List ℚ)
    (hbuf : buf.length = scene.rigidbodies.length * 16)
    (hvalid : ∀ rb ∈ scene.rigidbodies,
      (rb.shape_type = SPHERE ∨ rb.shape_type = BOX ∨ rb.shape_type = CAPSULE) ∧
      (rb.physics_mode = FOLLOW_BONE ∨ rb.physics_mode = PHYSICS ∨
        rb.physics_mode = PHYSICS_PLUS_BONE))
    (hbad : ∃ j ∈ scene.joints, scene.rigidbodies.length ≤ j.rigidbody_a_index ∨
      scene.rigidbodies.length ≤ j.rigidbody_b_index) :
    constructWorld scene buf = .error .InvalidIndex ∧
      ∀ w, constructWorld scene buf ≠ .ok w := by
  obtain ⟨ds, hds⟩ := buildBodies_ok_of_valid scene.rigidbodies 0 hvalid
  have hlen : ds.length = scene.rigidbodies.length :=
    (buildBodies_ok scene.rigidbodies 0 ds hds).1
  have hj : buildJoints ds.length scene.joints = .error .InvalidIndex :=
    buildJoints_error_invalid_index ds.length scene.joints (by rw [hlen]; exact hbad)
  have hmain : constructWorld scene buf = .error .InvalidIndex := by
    rw [constructWorld_with_bodies scene buf ds (by omega) hds, hj]
  exact ⟨hmain, fun w hw => by rw [hmain] at hw; cases hw⟩

/-- A joint whose `rigidbody_a_index` is out of range for a one-body scene. -/
def jointBadIndexW : Joint ℚ := { jointSpringW with rigidbody_a_index := 5 }

/-- One valid body plus the out-of-range joint. -/
def sceneBadJointW : PhysicsScene ℚ := ⟨[rbPhysicsW], [jointBadIndexW]⟩

/-- Witness for the amended C8 at a concrete scene. -/
theorem c8_witness :
    constructWorld sceneBadJointW buf16 = .error .InvalidIndex ∧
      ∀ w, constructWorld sceneBadJointW buf16 ≠ .ok w :=
  c8_invalid_index sceneBadJointW buf16 (by rfl)
    (by
      intro rb hrb
      simp only [sceneBadJointW, List.mem_singleton] at hrb
      subst hrb
      exact ⟨Or.inl rfl, Or.inr (Or.inl rfl)⟩)
    ⟨jointBadIndexW, by simp [sceneBadJointW], by norm_num [jointBadIndexW, jointSpringW,
      sceneBadJointW]⟩

/-- A body whose shape-type word is outside the enum domain. -/
def rbBadShapeW : RigidBody ℚ := { rbPhysicsW with shape_type := 7 }

/-- A scene with both an invalid shape and an out-of-range joint index. -/
def sceneShapeAndJointW : PhysicsScene ℚ := ⟨[rbBadShapeW], [jointBadIndexW]⟩

/-- Counterexample for C8 as stated: this scene contains a joint with an
out-of-range body index, yet construction fails with `InvalidShape` (the
body loop throws first), not `InvalidIndex`. -/
theorem c8_counterexample :
    (∃ j ∈ sceneShapeAndJointW.joints,
      sceneShapeAndJointW.rigidbodies.length ≤ j.rigidbody_a_index ∨
        sceneShapeAndJointW.rigidbodies.length ≤ j.rigidbody_b_index) ∧
    constructWorld sceneShapeAndJointW buf16 = .error .InvalidShape ∧
    constructWorld sceneShapeAndJointW buf16 ≠ .error .InvalidIndex := by
  refine ⟨⟨jointBadIndexW, by simp [sceneShapeAndJointW],
    by norm_num [jointBadIndexW, jointSpringW, sceneShapeAndJointW]⟩, rfl, ?_⟩
  intro hcon
  rw [show constructWorld sceneShapeAndJointW buf16 = .error .InvalidShape from rfl] at hcon
  injection hcon with h'
  cases h'

lemma buildJoints_map_type (n : Nat) (g : Joint ℚ → Nat) : ∀ js : List (Joint ℚ),
    buildJoints n (js.map fun j => { j with type := g j }) = buildJoints n js := by
  intro js
  induction js with
  | nil => rfl
  | cons j rest ih =>
    simp only [List.map_cons]
    unfold buildJoints
    simp only [ih]
    rfl

/-- Claim C10: world construction never reads a joint's `type` field:
replacing every joint's decoded type word by arbitrary values (including
values outside the `JointType` enum domain) yields exactly the same
construction result as the canonical `SPRING_6DOF` tag, so every joint is
built as a 6-DOF spring constraint and no type validation can fail. -/
theorem c10_joint_type_ignored (scene : PhysicsScene ℚ) (buf : List ℚ) (g : Joint ℚ → Nat) :
    constructWorld ⟨scene.rigidbodies, scene.joints.map fun j => { j with type := g j }⟩ buf =
      constructWorld
        ⟨scene.rigidbodies, scene.joints.map fun j => { j with type := SPRING_6DOF }⟩ buf := by
  unfold constructWorld
  simp only [buildJoints_map_type]

end Blazerod
